import Mathlib

/-!
Shallow embedding of the AI-Video-Research-Assistant pipeline
(src/app.py, src/summarizer.py, src/transcriber.py, src/video_processor.py)
together with theorems settling the behavioural properties of the code.

External dependencies (the OpenAI client, the moviepy media library, the
filesystem and the json standard library) are modelled explicitly: remote
calls and media decoding appear as oracle functions supplied as arguments,
Python exceptions are modelled with `Except`, floats with `Rat`, and
`json.loads` is given as an executable parser over a `Json` value type.
String primitives (`lower`, `strip`, `split`, slicing) are modelled by
structural recursion over the character list of a `String`, matching the
Python semantics on the ASCII inputs the pipeline handles.
-/

namespace AVRA

/-! ## Python-level modelling helpers -/

/-- Python exception values raised by the modelled modules. -/
inductive PyError where
  | importError (msg : String)
  | valueError (msg : String)
  | fileNotFoundError (msg : String)
  | runtimeError (msg : String)
deriving DecidableEq, Repr

/-- Truncation toward zero, Python `int()` applied to a float. -/
def ratTrunc (r : Rat) : Int :=
  if r < 0 then -(⌊-r⌋) else ⌊r⌋

/-- Python float `%` with the sign convention of the divisor:
`a % b = a - b * (a // b)` where `//` is floor division. -/
def pyMod (a b : Rat) : Rat :=
  a - b * ((⌊a / b⌋ : Int) : Rat)

/-- Python `f"{n:02d}"`: decimal rendering padded with a zero to width two
(the sign counts toward the width, as in Python). -/
def pad2 (n : Int) : String :=
  if 0 ≤ n ∧ n < 10 then "0" ++ toString n else toString n

/-- ASCII lower-casing of one character, as Python `str.lower` acts on the
ASCII inputs handled by this code base. -/
def lowerChar (c : Char) : Char :=
  if 'A' ≤ c ∧ c ≤ 'Z' then Char.ofNat (c.toNat + 32) else c

/-- Python `str.lower`. -/
def strLower (s : String) : String :=
  ⟨s.data.map lowerChar⟩

/-- The whitespace characters stripped by Python `str.strip`. -/
def pyWs (c : Char) : Bool :=
  c = ' ' || c = '\t' || c = '\n' || c = '\r' || c = '\x0b' || c = '\x0c'

/-- Python `str.strip()`. -/
def strStrip (s : String) : String :=
  ⟨((s.data.dropWhile pyWs).reverse.dropWhile pyWs).reverse⟩

/-- Predicate `isPre ns cs`: holds when the char list `ns` is an initial segment of `cs`. -/
def isPre : List Char → List Char → Bool
  | [], _ => true
  | _ :: _, [] => false
  | n :: nr, c :: cr => if n = c then isPre nr cr else false

/-- Predicate `hasSub cs ns`: the char list `ns` occurs contiguously somewhere in `cs`. -/
def hasSub : List Char → List Char → Bool
  | [], ns => isPre ns []
  | c :: cs, ns => isPre ns (c :: cs) || hasSub cs ns

/-- Python substring test `needle in hay`. -/
def strContains (hay needle : String) : Bool :=
  hasSub hay.data needle.data

/-- Python `s.startswith(pre)`. -/
def strStartsWith (s pre : String) : Bool :=
  isPre pre.data s.data

/-- Python slicing `s[n:]` (by characters; the sliced prefixes here are
ASCII, where Python string indices and characters coincide). -/
def strDrop (s : String) (n : Nat) : String :=
  ⟨s.data.drop n⟩

/-- The backtick character, delimiter of Markdown code fences. -/
def tickChar : Char := Char.ofNat 96

/-- Worker for `splitTicks`: split a char list on each non-overlapping
occurrence of three consecutive backticks, left to right.  The fuel
argument only drives structural recursion; it is always supplied as more
than the length of the list, so the fuel-exhausted branch is unreachable. -/
def splitTicksAux : Nat → List Char → List Char → List (List Char)
  | 0, cs, acc => [acc.reverse ++ cs]
  | _ + 1, [], acc => [acc.reverse]
  | fuel + 1, c :: cs, acc =>
    if c = tickChar then
      match cs with
      | c2 :: c3 :: rest =>
        if c2 = tickChar ∧ c3 = tickChar then acc.reverse :: splitTicksAux fuel rest []
        else splitTicksAux fuel cs (c :: acc)
      | _ => splitTicksAux fuel cs (c :: acc)
    else splitTicksAux fuel cs (c :: acc)

/-- Python `s.split("```")`. -/
def splitTicks (s : String) : List String :=
  (splitTicksAux (s.data.length + 1) s.data []).map String.mk

/-! ## Model of the `json` standard library (external dependency)

`json.loads` is modelled by an executable recursive-descent parser over a
`Json` value type.  Numbers are kept as their lexemes (the pipeline never
computes with parsed numbers), and parse failures carry one of the
`JsonErr` diagnostics, mirroring the strict-mode failure conditions of
the CPython `json` module. -/

/-- A parsed JSON value.  Object members are kept in insertion order with
unique keys, as a Python `dict` built by `json.loads` (a duplicated key
keeps the first position and the last value). -/
inductive Json where
  | null
  | bool (b : Bool)
  | num (lit : String)
  | str (s : String)
  | arr (elems : List Json)
  | obj (members : List (String × Json))

/-- Diagnostics of `json.JSONDecodeError`. -/
inductive JsonErr where
  | expectingValue
  | extraData
  | unterminatedString
  | invalidControlChar
  | invalidEscape
  | invalidUnicodeEscape
  | expectingDelimiter
  | expectingPropertyName
  | expectingColon
  | nestingExceeded
deriving DecidableEq, Repr

/-- The message text of a `json.JSONDecodeError`, as captured by `str(e)`;
every rendering is a non-empty string. -/
def JsonErr.render : JsonErr → String
  | .expectingValue => "Expecting value"
  | .extraData => "Extra data"
  | .unterminatedString => "Unterminated string starting at"
  | .invalidControlChar => "Invalid control character at"
  | .invalidEscape => "Invalid escape"
  | .invalidUnicodeEscape => "Invalid unicode escape"
  | .expectingDelimiter => "Expecting delimiter"
  | .expectingPropertyName => "Expecting property name enclosed in double quotes"
  | .expectingColon => "Expecting colon delimiter"
  | .nestingExceeded => "Nesting level exceeded"

/-- First lookup of a key in an association list: Python `d[k]` / `k in d`
on a dict modelled as an ordered association list with unique keys. -/
def pyLookup (d : List (String × Json)) (k : String) : Option Json :=
  match d with
  | [] => none
  | (k', v) :: rest => if k' = k then some v else pyLookup rest k

/-- Python `d[k] = v` on a dict modelled as an ordered association list:
replace the value in place when the key exists, append otherwise. -/
def objInsert (d : List (String × Json)) (k : String) (v : Json) : List (String × Json) :=
  match d with
  | [] => [(k, v)]
  | (k', v') :: rest => if k' = k then (k', v) :: rest else (k', v') :: objInsert rest k v

/-- The whitespace skipped between JSON tokens. -/
def jsonWs (c : Char) : Bool :=
  c = ' ' || c = '\t' || c = '\n' || c = '\r'

/-- Drop leading JSON whitespace. -/
def skipWs : List Char → List Char
  | [] => []
  | c :: cs => if jsonWs c then skipWs cs else c :: cs

/-- Numeric value of a hexadecimal digit. -/
def hexVal (c : Char) : Option Nat :=
  if '0' ≤ c ∧ c ≤ '9' then some (c.toNat - 48)
  else if 'a' ≤ c ∧ c ≤ 'f' then some (c.toNat - 87)
  else if 'A' ≤ c ∧ c ≤ 'F' then some (c.toNat - 55)
  else none

/-- Scan the body of a JSON string after its opening quote, accumulating
decoded characters in reverse.  Escape sequences follow the JSON grammar;
a `\uXXXX` escape decodes to the character of that code point (surrogates,
which the Lean `Char` type cannot hold, decode to the null character — no input
considered in this development contains them). -/
def parseStrBody : List Char → List Char → Except JsonErr (String × List Char)
  | _, [] => .error .unterminatedString
  | acc, '"' :: cs => .ok (⟨acc.reverse⟩, cs)
  | acc, '\\' :: e :: cs =>
    if e = '"' then parseStrBody ('"' :: acc) cs
    else if e = '\\' then parseStrBody ('\\' :: acc) cs
    else if e = '/' then parseStrBody ('/' :: acc) cs
    else if e = 'b' then parseStrBody ('\x08' :: acc) cs
    else if e = 'f' then parseStrBody ('\x0c' :: acc) cs
    else if e = 'n' then parseStrBody ('\n' :: acc) cs
    else if e = 'r' then parseStrBody ('\r' :: acc) cs
    else if e = 't' then parseStrBody ('\t' :: acc) cs
    else if e = 'u' then
      match cs with
      | h1 :: h2 :: h3 :: h4 :: cs2 =>
        match hexVal h1, hexVal h2, hexVal h3, hexVal h4 with
        | some a, some b, some c, some d =>
          parseStrBody (Char.ofNat (((a * 16 + b) * 16 + c) * 16 + d) :: acc) cs2
        | _, _, _, _ => .error .invalidUnicodeEscape
      | _ => .error .invalidUnicodeEscape
    else .error .invalidEscape
  | _, '\\' :: [] => .error .unterminatedString
  | acc, c :: cs =>
    if c.toNat < 32 then .error .invalidControlChar
    else parseStrBody (c :: acc) cs

/-- Take a maximal run of decimal digits. -/
def takeDigits : List Char → List Char × List Char
  | [] => ([], [])
  | c :: cs =>
    if '0' ≤ c ∧ c ≤ '9' then
      let (ds, r) := takeDigits cs
      (c :: ds, r)
    else ([], c :: cs)

/-- Scan an optional fraction part and an optional exponent part of a JSON
number, returning the consumed lexeme characters and the rest. -/
def scanFracExp (cs : List Char) : List Char × List Char :=
  let (fr, cs1) :=
    match cs with
    | '.' :: r =>
      match takeDigits r with
      | ([], _) => ([], cs)
      | (ds, r2) => ('.' :: ds, r2)
    | _ => ([], cs)
  match cs1 with
  | e :: r =>
    if e = 'e' ∨ e = 'E' then
      let (sg, r1) :=
        match r with
        | '+' :: rr => (['+'], rr)
        | '-' :: rr => (['-'], rr)
        | _ => ([], r)
      match takeDigits r1 with
      | ([], _) => (fr, cs1)
      | (ds, r2) => (fr ++ e :: (sg ++ ds), r2)
    else (fr, cs1)
  | [] => (fr, cs1)

/-- Scan a JSON number lexeme (`-?(0|[1-9][0-9]*)(\.[0-9]+)?([eE][+-]?[0-9]+)?`),
returning `none` when the input does not start with one. -/
def scanNumber (cs : List Char) : Option (List Char × List Char) :=
  let (sgn, cs1) :=
    match cs with
    | '-' :: r => (['-'], r)
    | _ => ([], cs)
  match cs1 with
  | c :: r =>
    if c = '0' then
      let (fe, r2) := scanFracExp r
      some (sgn ++ '0' :: fe, r2)
    else if '1' ≤ c ∧ c ≤ '9' then
      let (ds, r1) := takeDigits r
      let (fe, r2) := scanFracExp r1
      some (sgn ++ c :: (ds ++ fe), r2)
    else none
  | [] => none

/-- A frame of the parser stack: a partially-built array or a
partially-built object waiting for the value of `key`. -/
inductive PFrame where
  | inArr (acc : List Json)
  | inObj (acc : List (String × Json)) (key : String)

/-- Parser state: either a value is expected next, or a value was just
completed and the enclosing frame must be continued. -/
inductive PState where
  | needValue (stack : List PFrame)
  | haveValue (stack : List PFrame) (v : Json)

/-- One-pass JSON parser, as a fuel-indexed step function: `needValue`
consumes one value opener or atom, `haveValue` reduces it into the top
stack frame.  Every recursive step consumes at least one input character,
so fuel exceeding the input length never runs out. -/
def pstep : Nat → PState → List Char → Except JsonErr (Json × List Char)
  | 0, _, _ => .error .nestingExceeded
  | fuel + 1, .needValue stack, cs =>
    match skipWs cs with
    | 'n' :: 'u' :: 'l' :: 'l' :: rest => pstep fuel (.haveValue stack .null) rest
    | 't' :: 'r' :: 'u' :: 'e' :: rest => pstep fuel (.haveValue stack (.bool true)) rest
    | 'f' :: 'a' :: 'l' :: 's' :: 'e' :: rest => pstep fuel (.haveValue stack (.bool false)) rest
    | 'N' :: 'a' :: 'N' :: rest => pstep fuel (.haveValue stack (.num "NaN")) rest
    | 'I' :: 'n' :: 'f' :: 'i' :: 'n' :: 'i' :: 't' :: 'y' :: rest =>
      pstep fuel (.haveValue stack (.num "Infinity")) rest
    | '-' :: 'I' :: 'n' :: 'f' :: 'i' :: 'n' :: 'i' :: 't' :: 'y' :: rest =>
      pstep fuel (.haveValue stack (.num "-Infinity")) rest
    | '"' :: rest =>
      match parseStrBody [] rest with
      | .error e => .error e
      | .ok (s, r) => pstep fuel (.haveValue stack (.str s)) r
    | '[' :: rest =>
      match skipWs rest with
      | ']' :: r2 => pstep fuel (.haveValue stack (.arr [])) r2
      | _ => pstep fuel (.needValue (.inArr [] :: stack)) rest
    | '\x7b' :: rest =>
      match skipWs rest with
      | '\x7d' :: r2 => pstep fuel (.haveValue stack (.obj [])) r2
      | '"' :: r2 =>
        match parseStrBody [] r2 with
        | .error e => .error e
        | .ok (key, r3) =>
          match skipWs r3 with
          | ':' :: r4 => pstep fuel (.needValue (.inObj [] key :: stack)) r4
          | _ => .error .expectingColon
      | _ => .error .expectingPropertyName
    | c :: rest =>
      if c = '-' ∨ ('0' ≤ c ∧ c ≤ '9') then
        match scanNumber (c :: rest) with
        | some (lex, r) => pstep fuel (.haveValue stack (.num ⟨lex⟩)) r
        | none => .error .expectingValue
      else .error .expectingValue
    | [] => .error .expectingValue
  | fuel + 1, .haveValue stack v, cs =>
    match stack with
    | [] => .ok (v, cs)
    | .inArr acc :: rest =>
      match skipWs cs with
      | ',' :: r2 => pstep fuel (.needValue (.inArr (v :: acc) :: rest)) r2
      | ']' :: r2 => pstep fuel (.haveValue rest (.arr (v :: acc).reverse)) r2
      | _ => .error .expectingDelimiter
    | .inObj acc key :: rest =>
      match skipWs cs with
      | ',' :: r2 =>
        match skipWs r2 with
        | '"' :: r3 =>
          match parseStrBody [] r3 with
          | .error e => .error e
          | .ok (k2, r4) =>
            match skipWs r4 with
            | ':' :: r5 => pstep fuel (.needValue (.inObj (objInsert acc key v) k2 :: rest)) r5
            | _ => .error .expectingColon
        | _ => .error .expectingPropertyName
      | '\x7d' :: r2 => pstep fuel (.haveValue rest (.obj (objInsert acc key v))) r2
      | _ => .error .expectingDelimiter

/-- Model of `json.loads` (external standard-library dependency): parse one
JSON value and require only whitespace after it. -/
def json_loads (s : String) : Except JsonErr Json :=
  match pstep (s.data.length + 2) (.needValue []) s.data with
  | .error e => .error e
  | .ok (v, rest) =>
    if (skipWs rest).isEmpty then .ok v else .error .extraData

/-! ## src/summarizer.py: analysis and refinement via the OpenAI API

The `openai` package and the process environment are modelled by
`OpenAIEnv`; the remote chat-completion call is an oracle
`create : String → String → Except String String` mapping the system and
user prompts either to the response message content (already a string; a
`None` content would surface as the exception case) or to the text of the
exception the call raised. -/

/-- Availability of the `openai` import and the `OPENAI_API_KEY` process
environment variable (`none` when unset). -/
structure OpenAIEnv where
  openaiAvailable : Bool
  apiKey : Option String

/-- The missing-credential diagnostic of `_get_client`. -/
def missingKeyMsg : String :=
  "OPENAI_API_KEY environment variable is not set. Please set it with your OpenAI API key."

/-- Function `_get_client` from src/summarizer.py: `ImportError` when the `openai`
package is missing, `ValueError` when the key is unset or empty (falsy),
otherwise a client (the client value itself carries no information used by
this model; the remote call is a separate oracle). -/
def _get_client (env : OpenAIEnv) : Except PyError Unit :=
  if !env.openaiAvailable then
    .error (.importError "OpenAI package is required. Install with: pip install openai")
  else
    match env.apiKey with
    | none => .error (.valueError missingKeyMsg)
    | some k => if k = "" then .error (.valueError missingKeyMsg) else .ok ()

/-- A transcription segment dict `{"start": float, "end": float, "text": str}`
(the `end` key is modelled by the field `stop`, `end` being reserved). -/
structure PySeg where
  start : Rat
  stop : Rat
  text : String

/-- Python `f"{x:.1f}"`: fixed-point rendering with one decimal digit,
ties rounded to even on the exact rational (the bit-level artifacts of
binary floats are not modelled). -/
def fmt1f (x : Rat) : String :=
  let scaled := x * 10
  let fl : Int := ⌊scaled⌋
  let frac := scaled - (fl : Rat)
  let n : Int :=
    if frac > 1 / 2 then fl + 1
    else if frac < 1 / 2 then fl
    else if fl % 2 = 0 then fl else fl + 1
  let sign := if n < 0 then "-" else ""
  let a := n.natAbs
  sign ++ toString (a / 10) ++ "." ++ toString (a % 10)

/-- The timestamp-annotated segments block sent to the analyzer:
`[start s - end s] text` per segment, newline-joined. -/
def segmentsText (segments : List PySeg) : String :=
  String.intercalate "\n"
    (segments.map fun s => "[" ++ fmt1f s.start ++ "s - " ++ fmt1f s.stop ++ "s] " ++ s.text)

/-- The analyzer system prompt of `summarize_transcription`. -/
def analyzeSystemPrompt : String :=
  "You are an expert AI Research Assistant. Your goal is to analyze video transcriptions with high academic rigor and clarity.\nGiven a video transcription with timestamps, you must produce a structured academic analysis in JSON format:\n1. main_purpose: Identify the primary objective or thesis of the video (1-2 sentences).\n2. key_insights: Extract 5-8 significant takeaways or findings from the discourse.\n3. important_concepts: Highlight 3-5 core theoretical or practical concepts discussed.\n4. structured_summary: Generate a well-organized, multi-paragraph summary (3-5 paragraphs) covering the introduction, core arguments, and conclusion.\n5. keywords: List 5-10 academic keywords or technical terms.\n6. timestamped_highlights: Identify 3-6 critical moments with their exact timestamps in seconds.\n   Format: \x7b\"timestamp\": <seconds>, \"title\": \"<academic title>\", \"description\": \"<detailed analysis of the moment>\"\x7d\n\nMaintain an academic, objective tone. Output as valid JSON with the specified keys."

/-- The analyzer user prompt of `summarize_transcription`. -/
def analyzeUserPrompt (transcription : String) (segments : List PySeg) : String :=
  "As an AI Research Assistant, analyze this video transcription:\n\nTRANSCRIPTION WITH TIMESTAMPS:\n"
    ++ segmentsText segments
    ++ "\n\nFULL TEXT:\n" ++ transcription
    ++ "\n\nProvide the structured JSON response."

/-- Markdown code-fence stripping of `summarize_transcription`: when the
content starts with three backticks, take what stands between the first
two fences, drop a leading `json`/`JSON` language tag, and strip
whitespace. -/
def stripFence (content : String) : String :=
  if strStartsWith content "```" then
    let c := (splitTicks content).getD 1 ""
    let c :=
      if strStartsWith c "json" then strDrop c 4
      else if strStartsWith c "JSON" then strDrop c 4
      else c
    strStrip c
  else content

/-- The post-processing applied to the model response content before JSON
parsing: `content.strip()` followed by fence stripping. -/
def processedContent (response : String) : String :=
  stripFence (strStrip response)

/-- The degraded result returned by `summarize_transcription` when the
response fails to parse as JSON; `e` is the captured `str(e)` of the
`JSONDecodeError`. -/
def degradedResult (e : String) : List (String × Json) :=
  [("summary", .str "Summary generation completed but parsing failed."),
   ("key_points", .arr []),
   ("keywords", .arr []),
   ("topics", .arr []),
   ("timestamped_highlights", .arr []),
   ("_parse_error", .str e)]

/-- Python `dict.setdefault`: keep the binding when the key is present,
append the default otherwise. -/
def setdefault (d : List (String × Json)) (k : String) (v : Json) : List (String × Json) :=
  if (pyLookup d k).isSome then d else d ++ [(k, v)]

/-- The chain of `setdefault` calls of `summarize_transcription`, ensuring
the six expected analysis keys exist. -/
def applyDefaults (d : List (String × Json)) : List (String × Json) :=
  setdefault (setdefault (setdefault (setdefault (setdefault (setdefault d
    "main_purpose" (.str ""))
    "key_insights" (.arr []))
    "important_concepts" (.arr []))
    "structured_summary" (.str ""))
    "keywords" (.arr []))
    "timestamped_highlights" (.arr [])

/-- The summary-compatibility step of `summarize_transcription`: when no
`summary` key exists, synthesize one as
`result["main_purpose"] + "\n\n" + result["structured_summary"]`; the
Python `+` raises a `TypeError` (propagated by the enclosing handler as a
`RuntimeError`) unless both operands are strings. -/
def withSummary (r : List (String × Json)) : Except PyError (List (String × Json)) :=
  match pyLookup r "summary" with
  | some _ => .ok r
  | none =>
    match pyLookup r "main_purpose", pyLookup r "structured_summary" with
    | some (.str a), some (.str b) => .ok (objInsert r "summary" (.str (a ++ "\n\n" ++ b)))
    | _, _ => .error (.runtimeError "OpenAI API error: unsupported operand type(s) for +")

/-- Function `summarize_transcription` from src/summarizer.py.  `create` is the
chat-completion oracle; its error case models any exception raised while
performing the call or extracting the message content.  A response parsing
to a non-object JSON value makes the `setdefault` attribute access raise,
which the `except Exception` handler rewraps as a `RuntimeError`. -/
def summarize_transcription (env : OpenAIEnv) (create : String → String → Except String String)
    (transcription : String) (segments : List PySeg) :
    Except PyError (List (String × Json)) :=
  match _get_client env with
  | .error e => .error e
  | .ok _ =>
    match create analyzeSystemPrompt (analyzeUserPrompt transcription segments) with
    | .error e => .error (.runtimeError ("OpenAI API error: " ++ e))
    | .ok response =>
      match json_loads (processedContent response) with
      | .error e => .ok (degradedResult e.render)
      | .ok (.obj kvs) =>
        match withSummary (applyDefaults kvs) with
        | .error e => .error e
        | .ok r1 =>
          match pyLookup r1 "key_points" with
          | some _ => .ok r1
          | none =>
            match pyLookup r1 "key_insights" with
            | some v => .ok (objInsert r1 "key_points" v)
            | none => .error (.runtimeError "OpenAI API error: KeyError key_insights")
      | .ok _ =>
        .error (.runtimeError "OpenAI API error: object has no attribute setdefault")

/-- The refiner system prompt of `refine_transcription`. -/
def refineSystemPrompt : String :=
  "You are an expert transcription editor. Your task is to take a raw, potentially \nnoisy speech-to-text transcription and refine it into clear, professional text.\n\nRules:\n1. Fix punctuation, capitalization, and sentence structure.\n2. Remove filler words (um, uh, like, etc.) unless they are critical for meaning.\n3. Correct obvious misspellings based on context.\n4. DO NOT change the meaning or intent of the speaker.\n5. Provide the output as clear, well-structured paragraphs.\n6. Return ONLY the refined text."

/-- The refiner user prompt of `refine_transcription`. -/
def refineUserPrompt (raw : String) : String :=
  "Please refine this transcription:\n\n" ++ raw

/-- Function `refine_transcription` from src/summarizer.py: obtain a client (outside
any handler), issue the chat-completion call, and return the stripped
content; any exception inside the `try` is swallowed and the raw input is
returned verbatim. -/
def refine_transcription (env : OpenAIEnv) (create : String → String → Except String String)
    (raw : String) : Except PyError String :=
  match _get_client env with
  | .error e => .error e
  | .ok _ =>
    match create refineSystemPrompt (refineUserPrompt raw) with
    | .ok content => .ok (strStrip content)
    | .error _ => .ok raw

/-! ## src/transcriber.py: pure timestamp formatting helpers -/

/-- Function `format_timestamp` from src/transcriber.py: seconds to "MM:SS".
`int(seconds // 60)` truncates an already-integral float, hence equals the
floor of `seconds / 60`; `int(seconds % 60)` truncates the Python float
modulus. -/
def format_timestamp (seconds : Rat) : String :=
  let m : Int := ⌊seconds / 60⌋
  let s : Int := ratTrunc (pyMod seconds 60)
  pad2 m ++ ":" ++ pad2 s

/-- Function `format_timestamp_long` from src/transcriber.py: seconds to "HH:MM:SS",
with the hour field omitted when `h > 0` fails. -/
def format_timestamp_long (seconds : Rat) : String :=
  let h : Int := ⌊seconds / 3600⌋
  let m : Int := ⌊pyMod seconds 3600 / 60⌋
  let s : Int := ratTrunc (pyMod seconds 60)
  if h > 0 then pad2 h ++ ":" ++ pad2 m ++ ":" ++ pad2 s
  else pad2 m ++ ":" ++ pad2 s

/-! ## src/video_processor.py: audio extraction, frame capture, metadata

The moviepy library is modelled by `MediaEnv`: `openClip` is the
`VideoFileClip` constructor (its error case carries the exception text of a
failed decode), and an opened `Clip` exposes the metadata attributes, the
`get_frame` oracle (`none` models the call raising; the pixel payload is
irrelevant downstream and abstracted to `Unit`) and the
`audio.write_audiofile` oracle.  `clip.close()` is modelled as never
raising.  The filesystem is a list of existing paths: `os.path.exists` is
membership, `tempfile.NamedTemporaryFile(delete=False)` creates
`tempName`, and `os.unlink` removes a path. -/

/-- An opened `VideoFileClip`. -/
structure Clip where
  duration : Rat
  fps : Rat
  w : Int
  h : Int
  getFrame : Rat → Option Unit
  writeAudio : String → Except String Unit

/-- The moviepy import, `os.path.abspath`, the fresh temporary-file name
and the `VideoFileClip` constructor. -/
structure MediaEnv where
  moviepyAvailable : Bool
  abspath : String → String
  tempName : String
  openClip : String → Except String Clip

/-- Function `extract_audio` from src/video_processor.py, threading the filesystem:
check the input exists, create the temporary output, decode and write; on
any failure inside the `try`, delete the partially-written output (when it
exists) and raise `RuntimeError` with the underlying diagnostic. -/
def extract_audio (env : MediaEnv) (fs : List String) (video_path : String) :
    Except PyError String × List String :=
  if !env.moviepyAvailable then
    (.error (.importError "MoviePy is required for audio extraction. Install with: pip install moviepy"), fs)
  else if !fs.contains video_path then
    (.error (.fileNotFoundError ("Video file not found: " ++ video_path)), fs)
  else
    let vp := env.abspath video_path
    let audio_path := env.tempName
    let fs1 := audio_path :: fs
    let fail := fun (e : String) =>
      (Except.error (PyError.runtimeError ("Failed to extract audio: " ++ e)),
       if fs1.contains audio_path then fs1.erase audio_path else fs1)
    match env.openClip vp with
    | .error e => fail e
    | .ok clip =>
      match clip.writeAudio audio_path with
      | .error e => fail e
      | .ok _ => (.ok audio_path, fs1)

/-- Function `capture_frame_at_timestamp` from src/video_processor.py: `None` when
moviepy is missing, the path does not exist, or anything in the `try`
raises; otherwise the timestamp is clamped to
`[0, duration - 0.01]` before the single-frame extraction. -/
def capture_frame_at_timestamp (env : MediaEnv) (fs : List String)
    (video_path : String) (timestamp_seconds : Rat) : Option Unit :=
  if !env.moviepyAvailable then none
  else if !fs.contains video_path then none
  else
    match env.openClip video_path with
    | .error _ => none
    | .ok clip =>
      let timestamp := min (max 0 timestamp_seconds) (clip.duration - 1 / 100)
      clip.getFrame timestamp

/-- The frame image path `os.path.join(output_dir, f"frame_{i}_{int(ts)}s.png")`. -/
def frameFileName (output_dir : String) (i : Nat) (ts : Rat) : String :=
  output_dir ++ "/frame_" ++ toString i ++ "_" ++ toString (ratTrunc ts) ++ "s.png"

/-- The `enumerate` loop of `capture_key_frames`: one capture attempt per
timestamp, appending a `(timestamp, image_path)` pair on success and
silently skipping the timestamp otherwise (image encoding and saving are
modelled as succeeding). -/
def captureLoop (env : MediaEnv) (fs : List String) (video_path output_dir : String) :
    Nat → List Rat → List (Rat × String)
  | _, [] => []
  | i, ts :: rest =>
    match capture_frame_at_timestamp env fs video_path ts with
    | some _ => (ts, frameFileName output_dir i ts) :: captureLoop env fs video_path output_dir (i + 1) rest
    | none => captureLoop env fs video_path output_dir (i + 1) rest

/-- Function `capture_key_frames` from src/video_processor.py (the `output_dir`
parameter stands for the caller-supplied directory, or the fresh
`tempfile.mkdtemp()` directory when the caller passed none). -/
def capture_key_frames (env : MediaEnv) (fs : List String) (video_path : String)
    (timestamps : List Rat) (output_dir : String) : List (Rat × String) :=
  captureLoop env fs video_path output_dir 0 timestamps

/-- Function `get_video_duration` from src/video_processor.py: 0 when moviepy is
missing, the path does not exist, or opening the clip raises. -/
def get_video_duration (env : MediaEnv) (fs : List String) (video_path : String) : Rat :=
  if !env.moviepyAvailable || !fs.contains video_path then 0
  else
    match env.openClip video_path with
    | .error _ => 0
    | .ok clip => clip.duration

/-- The metadata record returned by `get_video_info`. -/
structure VideoInfo where
  duration : Rat
  fps : Rat
  width : Int
  height : Int
deriving DecidableEq, Repr

/-- Function `get_video_info` from src/video_processor.py: the zeroed record when
moviepy is missing, the path does not exist, or opening the clip raises. -/
def get_video_info (env : MediaEnv) (fs : List String) (video_path : String) : VideoInfo :=
  if !env.moviepyAvailable || !fs.contains video_path then ⟨0, 0, 0, 0⟩
  else
    match env.openClip video_path with
    | .error _ => ⟨0, 0, 0, 0⟩
    | .ok clip => ⟨clip.duration, clip.fps, clip.w, clip.h⟩

/-! ## src/video_processor.py: supported-extension check -/

/-- Index of the last occurrence of a dot in a char list, if any. -/
def findLastDot : List Char → Option Nat
  | [] => none
  | c :: cs =>
    match findLastDot cs with
    | some i => some (i + 1)
    | none => if c = '.' then some 0 else none

/-- Worker for `pathName`: split a char list on the path separator. -/
def splitSlashAux : List Char → List Char → List (List Char)
  | [], acc => [acc.reverse]
  | c :: cs, acc =>
    if c = '/' then acc.reverse :: splitSlashAux cs []
    else splitSlashAux cs (c :: acc)

/-- The final path component as computed by `pathlib.PurePosixPath(...).name`:
split on the separator, discarding empty components and the special
current-directory component. -/
def pathName (p : String) : List Char :=
  ((splitSlashAux p.data []).filter (fun cs => !cs.isEmpty && cs != ['.'])).getLastD []

/-- Model of `pathlib.PurePosixPath(...).suffix`: the extension of the final
component, from the last dot on, empty when the last dot is the first or the
last character of the name. -/
def pathSuffix (p : String) : String :=
  let cs := pathName p
  match findLastDot cs with
  | none => ""
  | some i => if 0 < i ∧ i < cs.length - 1 then ⟨cs.drop i⟩ else ""

/-- Constant `SUPPORTED_VIDEO_FORMATS` from src/video_processor.py (the Python set is
modelled as a list; only membership is ever used). -/
def SUPPORTED_VIDEO_FORMATS : List String :=
  [".mp4", ".avi", ".mkv", ".mov", ".webm",
   ".wmv", ".flv", ".m4v", ".mpg", ".mpeg",
   ".3gp", ".3g2", ".ogv", ".mts", ".m2ts",
   ".vob", ".ts", ".divx", ".f4v", ".asf"]

/-- Function `is_supported_video` from src/video_processor.py:
`Path(filename).suffix.lower() in SUPPORTED_VIDEO_FORMATS`. -/
def is_supported_video (filename : String) : Bool :=
  SUPPORTED_VIDEO_FORMATS.contains (strLower (pathSuffix filename))

/-! ## src/app.py: YouTube URL recognition -/

/-- A dynamically-typed Python argument, as passed to `_is_youtube_url`:
either a string or one of the representative non-string values. -/
inductive PyVal where
  | str (s : String)
  | pyNone
  | pyInt (n : Int)
  | pyList (len : Nat)
deriving DecidableEq, Repr

/-- Python truthiness of a `PyVal`. -/
def PyVal.truthy : PyVal → Bool
  | .str s => s != ""
  | .pyNone => false
  | .pyInt n => n != 0
  | .pyList n => n != 0

/-- Python `isinstance(v, str)`. -/
def PyVal.isStr : PyVal → Bool
  | .str _ => true
  | _ => false

/-- Function `_is_youtube_url` from src/app.py: rejects falsy or non-string inputs,
otherwise tests whether the trimmed lower-cased string contains
"youtube.com" or "youtu.be" as a substring. -/
def _is_youtube_url (url : PyVal) : Bool :=
  if !url.truthy || !url.isStr then false
  else
    match url with
    | .str s =>
      let l := strLower (strStrip s)
      strContains l "youtube.com" || strContains l "youtu.be"
    | _ => false

/-! ## Concrete environments used to instantiate the theorems -/

/-- An environment with the `openai` package importable but no API key. -/
def clientMissingKeyEnv : OpenAIEnv := ⟨true, none⟩

/-- An environment with the `openai` package importable and a non-empty key. -/
def clientOkEnv : OpenAIEnv := ⟨true, some "key"⟩

/-- A chat-completion oracle returning a fixed content. -/
def constOkCreate : String → String → Except String String := fun _ _ => .ok "IGNORED"

/-- A clip of duration ten seconds whose frames decode everywhere inside
the clamp range. -/
def healthyClip : Clip :=
  ⟨10, 30, 640, 360, fun t => if 0 ≤ t ∧ t ≤ 10 - 1 / 100 then some () else none, fun _ => .ok ()⟩

/-- A media environment that opens every path as `healthyClip`. -/
def healthyEnv : MediaEnv := ⟨true, fun s => s, "tmp.mp3", fun _ => .ok healthyClip⟩

/-- A media environment whose decoder raises on every path. -/
def failDecodeEnv : MediaEnv := ⟨true, fun s => s, "tmp.mp3", fun _ => .error "decode boom"⟩

/-- A media environment without the moviepy import. -/
def noMoviepyEnv : MediaEnv := ⟨false, fun s => s, "tmp.mp3", fun _ => .error "nope"⟩

/-- Projection used to state results about a returned analysis dict:
the binding of `k` when the computation returned a dict, `none` on error. -/
def okLookup (x : Except PyError (List (String × Json))) (k : String) : Option Json :=
  match x with
  | .ok r => pyLookup r k
  | .error _ => none

/-- The six analysis keys `summarize_transcription` defaults, with their
default values. -/
def expectedDefaults : List (String × Json) :=
  [("main_purpose", .str ""),
   ("key_insights", .arr []),
   ("important_concepts", .arr []),
   ("structured_summary", .str ""),
   ("keywords", .arr []),
   ("timestamped_highlights", .arr [])]

/-! ## Theorems -/

/-- Every `JSONDecodeError` message is non-empty. -/
theorem JsonErr.render_ne_empty (e : JsonErr) : e.render ≠ "" := by
  cases e <;> decide

/-- Claim C7: `format_timestamp` renders 65 s as "01:05" and 5 s as
"00:05"; `format_timestamp_long` renders 3661 s as "01:01:01" and 65 s as
"01:05", and in general (for non-negative seconds) it omits the hour field
exactly when the hour component is zero: with a zero hour component it
agrees with `format_timestamp`, with a positive one it prefixes the padded
hour field. -/
theorem format_timestamp_spec :
    format_timestamp 65 = "01:05" ∧ format_timestamp 5 = "00:05" ∧
    format_timestamp_long 3661 = "01:01:01" ∧ format_timestamp_long 65 = "01:05" ∧
    (∀ s : Rat, 0 ≤ s → ⌊s / 3600⌋ = 0 → format_timestamp_long s = format_timestamp s) ∧
    (∀ s : Rat, 0 ≤ s → 0 < ⌊s / 3600⌋ →
      format_timestamp_long s =
        pad2 ⌊s / 3600⌋ ++ ":" ++ pad2 ⌊pyMod s 3600 / 60⌋ ++ ":" ++ pad2 (ratTrunc (pyMod s 60))) := by
  have mod65 : pyMod (65 : Rat) 60 = 5 := by
    unfold pyMod
    rw [show ⌊(65 : Rat) / 60⌋ = 1 by norm_num]
    norm_num
  have mod5 : pyMod (5 : Rat) 60 = 5 := by
    unfold pyMod
    rw [show ⌊(5 : Rat) / 60⌋ = 0 by norm_num]
    norm_num
  have mod3661 : pyMod (3661 : Rat) 3600 = 61 := by
    unfold pyMod
    rw [show ⌊(3661 : Rat) / 3600⌋ = 1 by norm_num]
    norm_num
  have mod3661s : pyMod (3661 : Rat) 60 = 1 := by
    unfold pyMod
    rw [show ⌊(3661 : Rat) / 60⌋ = 61 by norm_num]
    norm_num
  have mod65l : pyMod (65 : Rat) 3600 = 65 := by
    unfold pyMod
    rw [show ⌊(65 : Rat) / 3600⌋ = 0 by norm_num]
    norm_num
  have trunc5 : ratTrunc (5 : Rat) = 5 := by unfold ratTrunc; norm_num
  have trunc1 : ratTrunc (1 : Rat) = 1 := by unfold ratTrunc; norm_num
  refine ⟨?_, ?_, ?_, ?_, ?_, ?_⟩
  · simp only [format_timestamp, mod65, trunc5]
    rw [show ⌊(65 : Rat) / 60⌋ = 1 by norm_num]
    decide
  · simp only [format_timestamp, mod5, trunc5]
    rw [show ⌊(5 : Rat) / 60⌋ = 0 by norm_num]
    decide
  · simp only [format_timestamp_long, mod3661, mod3661s, trunc1]
    rw [show ⌊(3661 : Rat) / 3600⌋ = 1 by norm_num, show ⌊(61 : Rat) / 60⌋ = 1 by norm_num]
    decide
  · simp only [format_timestamp_long, format_timestamp, mod65l, mod65, trunc5]
    rw [show ⌊(65 : Rat) / 3600⌋ = 0 by norm_num, show ⌊(65 : Rat) / 60⌋ = 1 by norm_num]
    decide
  · intro s _ h0
    have hmod : pyMod s 3600 = s := by
      unfold pyMod
      rw [h0]
      push_cast
      ring
    simp only [format_timestamp_long, format_timestamp, hmod, h0]
    norm_num
  · intro s _ hpos
    simp only [format_timestamp_long]
    rw [if_pos hpos]

/-- Witness for C7: the hour field is omitted at 65 seconds, whose hour
component is zero. -/
theorem format_timestamp_spec_witness :
    format_timestamp_long 65 = format_timestamp 65 :=
  format_timestamp_spec.2.2.2.2.1 65 (by norm_num) (by norm_num)

/-- Claim C9: `get_video_info` and `get_video_duration` never raise; when
the media library is unavailable, the path does not exist, or decoding
raises, they return the zeroed metadata record and 0 respectively. -/
theorem video_info_never_raises_zeroed :
    ∀ (env : MediaEnv) (fs : List String) (p : String),
      env.moviepyAvailable = false ∨ fs.contains p = false ∨ (∃ e, env.openClip p = .error e) →
      get_video_info env fs p = ⟨0, 0, 0, 0⟩ ∧ get_video_duration env fs p = 0 := by
  intro env fs p h
  have hcond : (!env.moviepyAvailable || !fs.contains p) = true ∨
      ∃ e, env.openClip p = .error e := by
    rcases h with h | h | h
    · left; simp [h]
    · left
      simp only [Bool.or_eq_true, Bool.not_eq_true']
      exact .inr h
    · right; exact h
  unfold get_video_info get_video_duration
  rcases hcond with h1 | ⟨e, he⟩
  · rw [if_pos h1, if_pos h1]
    exact ⟨rfl, rfl⟩
  · by_cases h1 : (!env.moviepyAvailable || !fs.contains p) = true
    · rw [if_pos h1, if_pos h1]
      exact ⟨rfl, rfl⟩
    · rw [if_neg h1, if_neg h1, he]
      exact ⟨rfl, rfl⟩

/-- Witness for C9: a missing media library yields the zeroed record. -/
theorem video_info_never_raises_zeroed_witness :
    get_video_info noMoviepyEnv [] "v.mp4" = ⟨0, 0, 0, 0⟩ ∧
    get_video_duration noMoviepyEnv [] "v.mp4" = 0 :=
  video_info_never_raises_zeroed noMoviepyEnv [] "v.mp4" (.inl rfl)

/-- Claim C6: for an existing video path, when the decode/write step of
`extract_audio` fails (either opening the clip or writing the audio), the
temporary output file is deleted before the `RuntimeError` carrying the
underlying diagnostic propagates: the resulting filesystem equals the
original one, with no orphan temporary file. -/
theorem extract_audio_cleanup_on_failure :
    ∀ (env : MediaEnv) (fs : List String) (vp : String),
      env.moviepyAvailable = true →
      fs.contains vp = true →
      env.tempName ∉ fs →
      (∀ e, env.openClip (env.abspath vp) = .error e →
        extract_audio env fs vp =
          (.error (.runtimeError ("Failed to extract audio: " ++ e)), fs)) ∧
      (∀ clip e, env.openClip (env.abspath vp) = .ok clip →
        clip.writeAudio env.tempName = .error e →
        extract_audio env fs vp =
          (.error (.runtimeError ("Failed to extract audio: " ++ e)), fs)) := by
  intro env fs vp hm hc _
  have herase : (env.tempName :: fs).erase env.tempName = fs := List.erase_cons_head ..
  have hcontains : (env.tempName :: fs).contains env.tempName = true := by
    simp [List.contains_cons]
  constructor
  · intro e he
    unfold extract_audio
    simp only [hm, hc, he, hcontains, herase, Bool.not_true, Bool.false_eq_true, if_false,
      if_true]
  · intro clip e hclip he
    unfold extract_audio
    simp only [hm, hc, hclip, he, hcontains, herase, Bool.not_true, Bool.false_eq_true, if_false,
      if_true]

/-- Witness for C6: a failing decoder deletes the temporary file and the
diagnostic is carried in the error. -/
theorem extract_audio_cleanup_on_failure_witness :
    extract_audio failDecodeEnv ["v.mp4"] "v.mp4" =
      (.error (.runtimeError ("Failed to extract audio: " ++ "decode boom")), ["v.mp4"]) :=
  (extract_audio_cleanup_on_failure failDecodeEnv ["v.mp4"] "v.mp4" rfl (by decide)
    (by decide)).1 "decode boom" rfl

/-- Claim C5: with the `openai` package importable but `OPENAI_API_KEY`
unset or empty, both `summarize_transcription` and `refine_transcription`
fail with the descriptive missing-credential `ValueError` — for every
chat-completion oracle, i.e. before and independently of any network call
— and the message names the missing variable. -/
theorem missing_credential_fails_fast :
    ∀ (env : OpenAIEnv) (create : String → String → Except String String)
      (t : String) (segs : List PySeg) (raw : String),
      env.openaiAvailable = true →
      env.apiKey = none ∨ env.apiKey = some "" →
      summarize_transcription env create t segs = .error (.valueError missingKeyMsg) ∧
      refine_transcription env create raw = .error (.valueError missingKeyMsg) ∧
      strContains missingKeyMsg "OPENAI_API_KEY" = true := by
  intro env create t segs raw ha hk
  have hc : _get_client env = .error (.valueError missingKeyMsg) := by
    unfold _get_client
    rcases hk with h | h <;> simp [ha, h]
  refine ⟨?_, ?_, by decide⟩
  · unfold summarize_transcription
    rw [hc]
  · unfold refine_transcription
    rw [hc]

/-- Witness for C5: both operations fail fast with the key unset. -/
theorem missing_credential_fails_fast_witness :
    summarize_transcription clientMissingKeyEnv constOkCreate "t" [] =
      .error (.valueError missingKeyMsg) ∧
    refine_transcription clientMissingKeyEnv constOkCreate "raw" =
      .error (.valueError missingKeyMsg) ∧
    strContains missingKeyMsg "OPENAI_API_KEY" = true :=
  missing_credential_fails_fast clientMissingKeyEnv constOkCreate "t" [] "raw" rfl (.inl rfl)

/-- Counterexample to claim C1 as stated: with the `openai` package
importable but the API key unset, `refine_transcription` does not return
its input — the missing-credential `ValueError` raised by `_get_client`
propagates, because the client is obtained outside the `try` handler. -/
theorem refine_missing_key_counterexample :
    refine_transcription clientMissingKeyEnv constOkCreate "hello" =
      .error (.valueError missingKeyMsg) ∧
    refine_transcription clientMissingKeyEnv constOkCreate "hello" ≠ .ok "hello" := by
  have h : refine_transcription clientMissingKeyEnv constOkCreate "hello" =
      .error (.valueError missingKeyMsg) := rfl
  exact ⟨h, by rw [h]; simp⟩

/-- Claim C1 (amended): once the client is successfully created (package
importable, key set), any failure of the model call is recovered
internally and `refine_transcription` returns the original input exactly;
a missing or unset `OPENAI_API_KEY`, by contrast, raises before any call. -/
theorem refine_identity_fallback :
    ∀ (env : OpenAIEnv) (create : String → String → Except String String) (raw e : String),
      _get_client env = .ok () →
      create refineSystemPrompt (refineUserPrompt raw) = .error e →
      refine_transcription env create raw = .ok raw := by
  intro env create raw e h1 h2
  unfold refine_transcription
  rw [h1, h2]

/-- Witness for C1 (amended): a failing model call falls back to the raw
input. -/
theorem refine_identity_fallback_witness :
    refine_transcription clientOkEnv (fun _ _ => .error "boom") "hello" = .ok "hello" :=
  refine_identity_fallback clientOkEnv (fun _ _ => .error "boom") "hello" "boom" rfl rfl

/-- Claim C2: when the model response content fails to parse as JSON (after
stripping and fence removal), `summarize_transcription` raises nothing and
returns the degraded result, whose keyword list and key-insight list (the
`key_points` field) are empty and whose `_parse_error` field is a
non-empty string. -/
theorem summarize_parse_failure_degraded :
    ∀ (env : OpenAIEnv) (create : String → String → Except String String)
      (t : String) (segs : List PySeg) (resp : String) (e : JsonErr),
      _get_client env = .ok () →
      create analyzeSystemPrompt (analyzeUserPrompt t segs) = .ok resp →
      json_loads (processedContent resp) = .error e →
      summarize_transcription env create t segs = .ok (degradedResult e.render) ∧
      pyLookup (degradedResult e.render) "keywords" = some (.arr []) ∧
      pyLookup (degradedResult e.render) "key_points" = some (.arr []) ∧
      pyLookup (degradedResult e.render) "_parse_error" = some (.str e.render) ∧
      e.render ≠ "" := by
  intro env create t segs resp e h1 h2 h3
  refine ⟨?_, rfl, rfl, rfl, JsonErr.render_ne_empty e⟩
  unfold summarize_transcription
  simp only [h1, h2, h3]

/-- Witness for C2: a non-JSON response yields the degraded result. -/
theorem summarize_parse_failure_degraded_witness :
    summarize_transcription clientOkEnv (fun _ _ => .ok "not json") "t" [] =
      .ok (degradedResult JsonErr.expectingValue.render) ∧
    pyLookup (degradedResult JsonErr.expectingValue.render) "keywords" = some (.arr []) ∧
    pyLookup (degradedResult JsonErr.expectingValue.render) "key_points" = some (.arr []) ∧
    pyLookup (degradedResult JsonErr.expectingValue.render) "_parse_error" =
      some (.str JsonErr.expectingValue.render) ∧
    JsonErr.expectingValue.render ≠ "" :=
  summarize_parse_failure_degraded clientOkEnv (fun _ _ => .ok "not json") "t" []
    "not json" .expectingValue rfl rfl rfl

/-- Every supported extension is lower-case-fixed. -/
theorem supported_formats_lower_fixed :
    ∀ e ∈ SUPPORTED_VIDEO_FORMATS, strLower e = e := by decide

/-- Claim C8: `is_supported_video` returns true exactly for the filenames
whose dot-suffix, compared case-insensitively, is one of the supported
extensions. -/
theorem is_supported_video_iff :
    ∀ f : String, is_supported_video f = true ↔
      ∃ e ∈ SUPPORTED_VIDEO_FORMATS, strLower (pathSuffix f) = strLower e := by
  intro f
  unfold is_supported_video
  constructor
  · intro h
    have hmem : strLower (pathSuffix f) ∈ SUPPORTED_VIDEO_FORMATS := by simpa using h
    exact ⟨strLower (pathSuffix f), hmem, (supported_formats_lower_fixed _ hmem).symm⟩
  · rintro ⟨e, he, heq⟩
    have hfix : strLower e = e := supported_formats_lower_fixed e he
    have hmem : strLower (pathSuffix f) ∈ SUPPORTED_VIDEO_FORMATS := by
      rw [heq, hfix]; exact he
    simpa using hmem

/-- Predicate `isPre`: holds exactly when the second list extends the first. -/
theorem isPre_iff : ∀ ns cs : List Char, isPre ns cs = true ↔ ∃ b, cs = ns ++ b := by
  intro ns
  induction ns with
  | nil => intro cs; simp [isPre]
  | cons n nr ih =>
    intro cs
    cases cs with
    | nil => simp [isPre]
    | cons c cr =>
      simp only [isPre]
      by_cases h : n = c
      · subst h
        rw [if_pos rfl, ih]
        constructor
        · rintro ⟨b, hb⟩
          exact ⟨b, by rw [hb, List.cons_append]⟩
        · rintro ⟨b, hb⟩
          rw [List.cons_append] at hb
          injection hb with _ hb2
          exact ⟨b, hb2⟩
      · rw [if_neg h]
        constructor
        · intro hf; exact absurd hf (by simp)
        · rintro ⟨b, hb⟩
          rw [List.cons_append] at hb
          injection hb with hb1 _
          exact absurd hb1.symm h

/-- Predicate `hasSub`: holds exactly when the pattern occurs contiguously. -/
theorem hasSub_iff : ∀ cs ns : List Char, hasSub cs ns = true ↔ ∃ a b, cs = a ++ (ns ++ b) := by
  intro cs
  induction cs with
  | nil =>
    intro ns
    simp only [hasSub, isPre_iff]
    constructor
    · rintro ⟨b, hb⟩; exact ⟨[], b, hb⟩
    · rintro ⟨a, b, hb⟩
      cases a with
      | nil => exact ⟨b, hb⟩
      | cons x xs => simp at hb
  | cons c cr ih =>
    intro ns
    simp only [hasSub, Bool.or_eq_true, isPre_iff, ih]
    constructor
    · rintro (⟨b, hb⟩ | ⟨a, b, hb⟩)
      · exact ⟨[], b, hb⟩
      · exact ⟨c :: a, b, by rw [hb]; rfl⟩
    · rintro ⟨a, b, hb⟩
      cases a with
      | nil => exact .inl ⟨b, hb⟩
      | cons x xs =>
        rw [List.cons_append] at hb
        injection hb with _ hb2
        exact .inr ⟨xs, b, hb2⟩

/-- Predicate `strContains`: holds exactly when the needle occurs as a substring. -/
theorem strContains_iff (hay needle : String) :
    strContains hay needle = true ↔ ∃ a b : String, hay = a ++ needle ++ b := by
  unfold strContains
  rw [hasSub_iff]
  constructor
  · rintro ⟨a, b, hb⟩
    refine ⟨⟨a⟩, ⟨b⟩, ?_⟩
    apply String.ext
    simpa [String.data_append] using hb
  · rintro ⟨a, b, hb⟩
    refine ⟨a.data, b.data, ?_⟩
    rw [hb]
    simp [String.data_append]

/-- Claim C10: `_is_youtube_url` returns false on every empty or
non-string input, and on a string returns true exactly when the trimmed,
lower-cased form contains "youtube.com" or "youtu.be" as a substring in
any position. -/
theorem is_youtube_url_iff :
    ∀ url : PyVal, _is_youtube_url url = true ↔
      ∃ s, url = PyVal.str s ∧ s ≠ "" ∧
        ((∃ a b : String, strLower (strStrip s) = a ++ "youtube.com" ++ b) ∨
         (∃ a b : String, strLower (strStrip s) = a ++ "youtu.be" ++ b)) := by
  intro url
  cases url with
  | str s =>
    by_cases hs : s = ""
    · subst hs
      constructor
      · intro h; exact absurd h (by decide)
      · rintro ⟨s', hs', he, _⟩
        injection hs' with h
        exact absurd h.symm he
    · have hL : _is_youtube_url (.str s) =
          (strContains (strLower (strStrip s)) "youtube.com" ||
           strContains (strLower (strStrip s)) "youtu.be") := by
        unfold _is_youtube_url
        simp [PyVal.truthy, PyVal.isStr, hs]
      rw [hL, Bool.or_eq_true]
      constructor
      · intro h'
        refine ⟨s, rfl, hs, ?_⟩
        rcases h' with h' | h'
        · exact .inl ((strContains_iff ..).mp h')
        · exact .inr ((strContains_iff ..).mp h')
      · rintro ⟨s', hs', _, hsub⟩
        injection hs' with h
        subst h
        rcases hsub with h' | h'
        · exact .inl ((strContains_iff ..).mpr h')
        · exact .inr ((strContains_iff ..).mpr h')
  | pyNone =>
    constructor
    · intro h; exact absurd h (by decide)
    · rintro ⟨s', hs', _⟩; cases hs'
  | pyInt n =>
    have hfalse : _is_youtube_url (.pyInt n) = false := by
      unfold _is_youtube_url
      simp [PyVal.isStr]
    constructor
    · intro h
      rw [hfalse] at h
      exact absurd h (by simp)
    · rintro ⟨s', hs', _⟩; cases hs'
  | pyList n =>
    have hfalse : _is_youtube_url (.pyList n) = false := by
      unfold _is_youtube_url
      simp [PyVal.isStr]
    constructor
    · intro h
      rw [hfalse] at h
      exact absurd h (by simp)
    · rintro ⟨s', hs', _⟩; cases hs'

/-- When every capture attempt succeeds, the loop yields one frame per
timestamp. -/
theorem captureLoop_length_all_some (env : MediaEnv) (fs : List String) (p dir : String) :
    ∀ (tss : List Rat) (i : Nat),
      (∀ ts ∈ tss, (capture_frame_at_timestamp env fs p ts).isSome) →
      (captureLoop env fs p dir i tss).length = tss.length := by
  intro tss
  induction tss with
  | nil => intro i _; rfl
  | cons ts rest ih =>
    intro i hall
    have hts := hall ts (List.mem_cons_self ..)
    obtain ⟨u, hu⟩ := Option.isSome_iff_exists.mp hts
    simp only [captureLoop, hu, List.length_cons]
    rw [ih (i + 1) fun t ht => hall t (List.mem_cons_of_mem _ ht)]

/-- The number of captured frames does not depend on the starting index of
the loop. -/
theorem captureLoop_length_index (env : MediaEnv) (fs : List String) (p dir : String) :
    ∀ (tss : List Rat) (i j : Nat),
      (captureLoop env fs p dir i tss).length = (captureLoop env fs p dir j tss).length := by
  intro tss
  induction tss with
  | nil => intro i j; rfl
  | cons ts rest ih =>
    intro i j
    cases h : capture_frame_at_timestamp env fs p ts with
    | some u => simp only [captureLoop, h, List.length_cons, ih (i + 1) (j + 1)]
    | none => simp only [captureLoop, h, ih (i + 1) (j + 1)]

/-- Claim C3 (amended): each per-timestamp capture clamps the timestamp to
`[0, duration − 0.01]` before extraction, so on a healthy clip (with every
frame inside the clamp range decodable) `capture_key_frames` returns one
frame for every requested timestamp — in particular two frames, not one,
for a list of one in-range and one out-of-range timestamp; a timestamp
whose individual capture fails is skipped silently, only shortening the
result, and no exception escapes (the model is total). -/
theorem capture_key_frames_clamped :
    (∀ (env : MediaEnv) (fs : List String) (p : String) (clip : Clip) (ts : Rat),
      env.moviepyAvailable = true → fs.contains p = true → env.openClip p = .ok clip →
      capture_frame_at_timestamp env fs p ts =
        clip.getFrame (min (max 0 ts) (clip.duration - 1 / 100))) ∧
    (∀ (env : MediaEnv) (fs : List String) (p : String) (clip : Clip),
      env.moviepyAvailable = true → fs.contains p = true → env.openClip p = .ok clip →
      1 / 100 ≤ clip.duration →
      (∀ t : Rat, 0 ≤ t → t ≤ clip.duration - 1 / 100 → (clip.getFrame t).isSome) →
      ∀ (tss : List Rat) (dir : String),
        (capture_key_frames env fs p tss dir).length = tss.length) ∧
    (∀ (env : MediaEnv) (fs : List String) (p : String) (ts : Rat) (tss : List Rat)
      (dir : String),
      capture_frame_at_timestamp env fs p ts = none →
      (capture_key_frames env fs p (ts :: tss) dir).length =
        (capture_key_frames env fs p tss dir).length) := by
  have hclamp : ∀ (env : MediaEnv) (fs : List String) (p : String) (clip : Clip) (ts : Rat),
      env.moviepyAvailable = true → fs.contains p = true → env.openClip p = .ok clip →
      capture_frame_at_timestamp env fs p ts =
        clip.getFrame (min (max 0 ts) (clip.duration - 1 / 100)) := by
    intro env fs p clip ts hm hc hclip
    unfold capture_frame_at_timestamp
    simp only [hm, hc, hclip, Bool.not_true, Bool.false_eq_true, if_false]
  refine ⟨hclamp, ?_, ?_⟩
  · intro env fs p clip hm hc hclip hdur htotal tss dir
    unfold capture_key_frames
    apply captureLoop_length_all_some
    intro ts _
    rw [hclamp env fs p clip ts hm hc hclip]
    apply htotal
    · exact le_min (le_max_left ..) (by linarith)
    · exact min_le_right ..
  · intro env fs p ts tss dir h
    unfold capture_key_frames
    simp only [captureLoop, h]
    exact captureLoop_length_index env fs p dir tss 1 0

/-- Witness for C3 (amended): on the ten-second healthy clip, the list of
one in-range timestamp (2 s) and one out-of-range timestamp (100 s)
produces one frame per timestamp. -/
theorem capture_key_frames_clamped_witness :
    (capture_key_frames healthyEnv ["video.mp4"] "video.mp4" [2, 100] "out").length = 2 :=
  capture_key_frames_clamped.2.1 healthyEnv ["video.mp4"] "video.mp4" healthyClip rfl
    (by decide) rfl (by norm_num [healthyClip])
    (fun t h1 h2 => by
      simp only [healthyClip] at h2 ⊢
      rw [if_pos ⟨h1, h2⟩]
      rfl)
    [2, 100] "out"

/-- Counterexample to claim C3 as stated: with one valid timestamp (2 s)
and one out-of-range timestamp (100 s) on a healthy ten-second clip,
`capture_key_frames` returns two frames, not one — the out-of-range
timestamp is clamped into range rather than dropped. -/
theorem capture_two_frames_counterexample :
    (capture_key_frames healthyEnv ["video.mp4"] "video.mp4" [2, 100] "out").map Prod.fst =
      [2, 100] ∧
    (capture_key_frames healthyEnv ["video.mp4"] "video.mp4" [2, 100] "out").length ≠ 1 ∧
    healthyClip.duration = 10 ∧ ((2 : Rat) < healthyClip.duration ∧
      healthyClip.duration < 100) := by
  have hcontains : (["video.mp4"] : List String).contains "video.mp4" = true := by decide
  have hcap2 : capture_frame_at_timestamp healthyEnv ["video.mp4"] "video.mp4" 2 = some () := by
    unfold capture_frame_at_timestamp
    simp only [healthyEnv, healthyClip, hcontains, Bool.not_true, Bool.false_eq_true, if_false]
    rw [if_pos]
    constructor
    · rw [max_eq_right (by norm_num)]
      exact le_min (by norm_num) (by norm_num)
    · exact min_le_right ..
  have hcap100 : capture_frame_at_timestamp healthyEnv ["video.mp4"] "video.mp4" 100 =
      some () := by
    unfold capture_frame_at_timestamp
    simp only [healthyEnv, healthyClip, hcontains, Bool.not_true, Bool.false_eq_true, if_false]
    rw [if_pos]
    constructor
    · rw [max_eq_right (by norm_num)]
      exact le_min (by norm_num) (by norm_num)
    · exact min_le_right ..
  refine ⟨?_, ?_, rfl, by norm_num [healthyClip]⟩
  · unfold capture_key_frames
    simp only [captureLoop, hcap2, hcap100, List.map_cons, List.map_nil]
  · unfold capture_key_frames
    simp only [captureLoop, hcap2, hcap100, List.length_cons, List.length_nil]
    decide

/-- A binding found in the left part of an appended association list is
found in the whole. -/
theorem pyLookup_append_some {d1 : List (String × Json)} {k : String} {v : Json}
    (d2 : List (String × Json)) (h : pyLookup d1 k = some v) :
    pyLookup (d1 ++ d2) k = some v := by
  induction d1 with
  | nil => cases h
  | cons hd tl ih =>
    obtain ⟨k', w⟩ := hd
    by_cases he : k' = k
    · simp only [pyLookup, if_pos he] at h
      simp only [List.cons_append, pyLookup, if_pos he]
      exact h
    · simp only [pyLookup, if_neg he] at h
      simp only [List.cons_append, pyLookup, if_neg he]
      exact ih h

/-- A key absent from the left part of an appended association list is
looked up in the right part. -/
theorem pyLookup_append_none {d1 : List (String × Json)} {k : String}
    (d2 : List (String × Json)) (h : pyLookup d1 k = none) :
    pyLookup (d1 ++ d2) k = pyLookup d2 k := by
  induction d1 with
  | nil => rfl
  | cons hd tl ih =>
    obtain ⟨k', w⟩ := hd
    by_cases he : k' = k
    · simp only [pyLookup, if_pos he] at h
      cases h
    · simp only [pyLookup, if_neg he] at h
      simp only [List.cons_append, pyLookup, if_neg he]
      exact ih h

/-- Lookup after `setdefault`: the defaulted key reads its old binding or
the default; other keys are untouched. -/
theorem pyLookup_setdefault (d : List (String × Json)) (k : String) (v : Json) (k' : String) :
    pyLookup (setdefault d k v) k' =
      if k' = k then some ((pyLookup d k).getD v) else pyLookup d k' := by
  unfold setdefault
  by_cases hp : (pyLookup d k).isSome
  · rw [if_pos hp]
    obtain ⟨w, hw⟩ := Option.isSome_iff_exists.mp hp
    by_cases he : k' = k
    · subst he
      rw [if_pos rfl, hw]
      rfl
    · rw [if_neg he]
  · rw [if_neg hp]
    have hn : pyLookup d k = none := Option.not_isSome_iff_eq_none.mp hp
    by_cases he : k' = k
    · subst he
      rw [if_pos rfl, hn, pyLookup_append_none _ hn]
      simp [pyLookup]
    · rw [if_neg he]
      cases hd : pyLookup d k' with
      | some w => exact pyLookup_append_some _ hd
      | none =>
        rw [pyLookup_append_none _ hd]
        simp only [pyLookup]
        rw [if_neg (Ne.symm he)]

/-- Lookup after a dict assignment: the assigned key reads the new value;
other keys are untouched. -/
theorem pyLookup_objInsert (d : List (String × Json)) (k : String) (v : Json) (k' : String) :
    pyLookup (objInsert d k v) k' = if k' = k then some v else pyLookup d k' := by
  induction d with
  | nil =>
    by_cases he : k' = k
    · subst he
      simp [objInsert, pyLookup]
    · simp only [objInsert, pyLookup, if_neg he]
      rw [if_neg (Ne.symm he)]
  | cons hd tl ih =>
    obtain ⟨k2, v2⟩ := hd
    by_cases h2 : k2 = k
    · subst h2
      simp only [objInsert, if_pos rfl]
      by_cases he : k' = k2
      · subst he
        simp [pyLookup]
      · simp only [pyLookup, if_neg (Ne.symm he), if_neg he]
    · simp only [objInsert, if_neg h2, pyLookup]
      by_cases he : k2 = k'
      · subst he
        rw [if_pos rfl, if_neg (fun h : k2 = k => h2 h), if_pos rfl]
      · rw [if_neg he, if_neg he, ih]

/-- The summary-compatibility step does not change any key other than
`summary`. -/
theorem withSummary_lookup {r0 r1 : List (String × Json)} (h : withSummary r0 = .ok r1)
    {k : String} (hk : k ≠ "summary") : pyLookup r1 k = pyLookup r0 k := by
  unfold withSummary at h
  cases hs : pyLookup r0 "summary" with
  | some w =>
    rw [hs] at h
    injection h with h
    subst h
    rfl
  | none =>
    rw [hs] at h
    cases hmp : pyLookup r0 "main_purpose" with
    | none =>
      cases hss : pyLookup r0 "structured_summary" with
      | none => rw [hmp, hss] at h; simp at h
      | some b => rw [hmp, hss] at h; simp at h
    | some a =>
      cases hss : pyLookup r0 "structured_summary" with
      | none =>
        rw [hmp, hss] at h
        cases a <;> simp at h
      | some b =>
        rw [hmp, hss] at h
        cases a with
        | str sa =>
          cases b with
          | str sb =>
            injection h with h
            subst h
            rw [pyLookup_objInsert, if_neg hk]
          | null => simp at h
          | bool x => simp at h
          | num x => simp at h
          | arr x => simp at h
          | obj x => simp at h
        | null => cases b <;> simp at h
        | bool x => cases b <;> simp at h
        | num x => cases b <;> simp at h
        | arr x => cases b <;> simp at h
        | obj x => cases b <;> simp at h

/-- Claim C4 (amended): for every model response parsing as a JSON object,
when `summarize_transcription` returns a result, each of the six expected
analysis keys is bound in it: to its value from the parsed JSON when
present (a JSON `null` is passed through as `null`), and to its default
(empty string or empty list) when missing — never left absent. -/
theorem summarize_defaults_missing_keys :
    ∀ (env : OpenAIEnv) (create : String → String → Except String String)
      (t : String) (segs : List PySeg) (resp : String)
      (kvs r : List (String × Json)),
      _get_client env = .ok () →
      create analyzeSystemPrompt (analyzeUserPrompt t segs) = .ok resp →
      json_loads (processedContent resp) = .ok (.obj kvs) →
      summarize_transcription env create t segs = .ok r →
      ∀ k d, (k, d) ∈ expectedDefaults →
        pyLookup r k = some ((pyLookup kvs k).getD d) := by
  intro env create t segs resp kvs r h1 h2 h3 hr k d hkd
  have hcase : (k = "main_purpose" ∧ d = .str "") ∨ (k = "key_insights" ∧ d = .arr []) ∨
      (k = "important_concepts" ∧ d = .arr []) ∨ (k = "structured_summary" ∧ d = .str "") ∨
      (k = "keywords" ∧ d = .arr []) ∨ (k = "timestamped_highlights" ∧ d = .arr []) := by
    simp only [expectedDefaults, List.mem_cons, List.not_mem_nil, or_false,
      Prod.mk.injEq] at hkd
    exact hkd
  have hk_sum : k ≠ "summary" := by
    rcases hcase with ⟨h, _⟩ | ⟨h, _⟩ | ⟨h, _⟩ | ⟨h, _⟩ | ⟨h, _⟩ | ⟨h, _⟩ <;> subst h <;> decide
  have hk_kp : k ≠ "key_points" := by
    rcases hcase with ⟨h, _⟩ | ⟨h, _⟩ | ⟨h, _⟩ | ⟨h, _⟩ | ⟨h, _⟩ | ⟨h, _⟩ <;> subst h <;> decide
  have hr0 : pyLookup (applyDefaults kvs) k = some ((pyLookup kvs k).getD d) := by
    rcases hcase with ⟨hk', hd⟩ | ⟨hk', hd⟩ | ⟨hk', hd⟩ | ⟨hk', hd⟩ | ⟨hk', hd⟩ | ⟨hk', hd⟩ <;>
      subst hk' <;> subst hd <;>
      simp [applyDefaults, pyLookup_setdefault]
  unfold summarize_transcription at hr
  simp only [h1, h2, h3] at hr
  cases hws : withSummary (applyDefaults kvs) with
  | error e =>
    simp only [hws] at hr
    cases hr
  | ok r1 =>
    simp only [hws] at hr
    have hr1k : pyLookup r1 k = pyLookup (applyDefaults kvs) k := withSummary_lookup hws hk_sum
    cases hkp : pyLookup r1 "key_points" with
    | some w =>
      simp only [hkp] at hr
      injection hr with hr
      subst hr
      rw [hr1k, hr0]
    | none =>
      simp only [hkp] at hr
      cases hki : pyLookup r1 "key_insights" with
      | none =>
        simp only [hki] at hr
        cases hr
      | some v =>
        simp only [hki] at hr
        injection hr with hr
        subst hr
        rw [pyLookup_objInsert, if_neg hk_kp, hr1k, hr0]

/-- The environment and oracle of the C4 witness: a response whose JSON
object lacks all six expected keys. -/
def emptyObjCreate : String → String → Except String String :=
  fun _ _ => .ok "\x7b\"a\": 1\x7d"

/-- The parsed object of the C4 witness response. -/
def emptyObjKvs : List (String × Json) := [("a", .num "1")]

/-- The analysis dict computed by `summarize_transcription` for the C4
witness response: defaults appended, summary synthesized, key points
aliased. -/
def emptyObjResult : List (String × Json) :=
  [("a", .num "1"), ("main_purpose", .str ""), ("key_insights", .arr []),
   ("important_concepts", .arr []), ("structured_summary", .str ""), ("keywords", .arr []),
   ("timestamped_highlights", .arr []), ("summary", .str "\n\n"), ("key_points", .arr [])]

/-- Witness for C4 (amended): a key missing from the parsed JSON is bound
to its default in the result. -/
theorem summarize_defaults_missing_keys_witness :
    pyLookup emptyObjResult "keywords" =
      some ((pyLookup emptyObjKvs "keywords").getD (.arr [])) :=
  summarize_defaults_missing_keys clientOkEnv emptyObjCreate "t" [] "\x7b\"a\": 1\x7d"
    emptyObjKvs emptyObjResult rfl rfl rfl rfl "keywords" (.arr [])
    (.tail _ (.tail _ (.tail _ (.tail _ (.head _)))))

/-- The oracle of the C4 counterexample: a JSON object binding
`main_purpose` explicitly to `null` (with a `summary` key so the call
returns normally). -/
def nullPurposeCreate : String → String → Except String String :=
  fun _ _ => .ok "\x7b\"main_purpose\": null, \"summary\": \"x\"\x7d"

/-- Counterexample to claim C4 as stated: the model response parses as a
JSON object, `summarize_transcription` returns a result, and the expected
key `main_purpose` is bound to `null` in it — `setdefault` only fills
missing keys and passes an explicit JSON `null` through. -/
theorem summarize_null_passthrough_counterexample :
    okLookup (summarize_transcription clientOkEnv nullPurposeCreate "t" []) "main_purpose" =
      some Json.null ∧
    json_loads (processedContent "\x7b\"main_purpose\": null, \"summary\": \"x\"\x7d") =
      .ok (.obj [("main_purpose", .null), ("summary", .str "x")]) :=
  ⟨rfl, rfl⟩

end AVRA
